import Mathlib

/-!
Shallow embedding of the footy-rater rating engine (src/ratingEngine.js,
class FootballRatingEngine) and the JSON persistence layer's saveMatch
(src/database.js, class FootballDatabase), together with proofs of the
stated properties.

JavaScript numbers are modelled as `Int` (all arithmetic in the engine is
integer arithmetic on integer inputs).  A possibly-absent goal `minute`
field is `Option Int`; JavaScript's `goal.minute || 0` and the raw
comparison `goal.minute >= 80` (false on `undefined`) are modelled
explicitly.
-/

/-- A goal event as consumed by the engine: `{ team, minute, scorer, type }`.
`minute` is optional (the JS code tolerates a missing field). -/
structure Goal where
  team : String
  minute : Option Int
  scorer : String
  type : String
deriving DecidableEq

/-- The engine's input `matchData`; the `goals` field may be absent
(destructuring default `goals = []` in `calculateRating`). -/
structure MatchData where
  homeTeam : String
  awayTeam : String
  homeScore : Int
  awayScore : Int
  goals : Option (List Goal)
deriving DecidableEq

/-- `goal.minute || 0` — a missing minute reads as 0 (and minute 0 is falsy
in JS, so it also yields 0; the two agree). -/
def minuteOrZero : Option Int → Int
  | none => 0
  | some v => v

/-- The raw JS comparison `goal.minute >= 80` used in the distribution
scorer: `undefined >= 80` is false. -/
def minuteGe80 : Option Int → Bool
  | none => false
  | some v => 80 ≤ v

/-- `Math.round` applied to an integer value is the identity; every
sub-score in the engine is produced by integer accumulation. -/
def mathRound (n : Int) : Int := n

/-- `calculateGoalVolumeScore(totalGoals)` — the exact-equality table from
ratingEngine.js lines 49-57.  Input is any integer, as in JS; only the
exact values 0..5 are tested before the default `return 50`. -/
def calculateGoalVolumeScore (totalGoals : Int) : Int :=
  if totalGoals = 0 then 0
  else if totalGoals = 1 then 5
  else if totalGoals = 2 then 15
  else if totalGoals = 3 then 25
  else if totalGoals = 4 then 35
  else if totalGoals = 5 then 45
  else 50

/-- The per-goal accumulation of `calculateGoalTimingScore`'s forEach body
(ratingEngine.js lines 65-87): bands on `goal.minute || 0`, additive. -/
def goalTimingPoints (g : Goal) : Int :=
  (if minuteOrZero g.minute ≤ 15 then 3 else 0)
    + (if 75 ≤ minuteOrZero g.minute then 3 else 0)
    + (if 90 ≤ minuteOrZero g.minute then 5 else 0)
    + (if 80 ≤ minuteOrZero g.minute then 2 else 0)

/-- `calculateGoalTimingScore(goals)` — sum of per-goal band points, then
`Math.min(score, 25)`. -/
def calculateGoalTimingScore (goals : List Goal) : Int :=
  min (goals.foldl (fun score g => score + goalTimingPoints g) 0) 25

/-- Comeback check of the distribution walk: post-increment scoring tally
strictly exceeds the opponent's tally and the opponent has scored. -/
def comebackBonus (tally other : Int) : Int :=
  if tally > other ∧ other > 0 then 4 else 0

/-- Equalizer check of the distribution walk: post-increment scoring tally
equals the opponent's tally and the opponent has scored. -/
def equalizerBonus (tally other : Int) : Int :=
  if tally = other ∧ other > 0 then 3 else 0

/-- Late-winner check of the distribution walk: `goal.minute >= 80` (raw JS
comparison) and the post-increment scoring tally exceeds the opponent's. -/
def lateWinnerBonus (m : Option Int) (tally other : Int) : Int :=
  if minuteGe80 m = true ∧ tally > other then 2 else 0

/-- Running state of the distribution walk: accumulated `score` and the
running `homeGoals` / `awayGoals` tallies. -/
structure DistState where
  score : Int
  homeGoals : Int
  awayGoals : Int
deriving DecidableEq

/-- The three bonus components a single goal can earn in the walk. -/
structure DistParts where
  comeback : Int
  equalizer : Int
  late : Int
deriving DecidableEq

/-- One iteration of the `goals.forEach` body of
`calculateGoalDistributionScore` (ratingEngine.js lines 108-138), with its
bonus components exposed: the scoring side's tally is incremented and the
three checks use the post-increment tallies.  A goal whose `team` is
neither `'home'` nor `'away'` leaves the state unchanged. -/
def distStepParts (s : DistState) (g : Goal) : DistParts × DistState :=
  if g.team = "home" then
    ⟨⟨comebackBonus (s.homeGoals + 1) s.awayGoals,
      equalizerBonus (s.homeGoals + 1) s.awayGoals,
      lateWinnerBonus g.minute (s.homeGoals + 1) s.awayGoals⟩,
     ⟨s.score + comebackBonus (s.homeGoals + 1) s.awayGoals
        + equalizerBonus (s.homeGoals + 1) s.awayGoals
        + lateWinnerBonus g.minute (s.homeGoals + 1) s.awayGoals,
      s.homeGoals + 1, s.awayGoals⟩⟩
  else if g.team = "away" then
    ⟨⟨comebackBonus (s.awayGoals + 1) s.homeGoals,
      equalizerBonus (s.awayGoals + 1) s.homeGoals,
      lateWinnerBonus g.minute (s.awayGoals + 1) s.homeGoals⟩,
     ⟨s.score + comebackBonus (s.awayGoals + 1) s.homeGoals
        + equalizerBonus (s.awayGoals + 1) s.homeGoals
        + lateWinnerBonus g.minute (s.awayGoals + 1) s.homeGoals,
      s.homeGoals, s.awayGoals + 1⟩⟩
  else ⟨⟨0, 0, 0⟩, s⟩

/-- One iteration of the distribution walk (state part only). -/
def distStep (s : DistState) (g : Goal) : DistState :=
  (distStepParts s g).2

/-- `calculateGoalDistributionScore(matchData, goals)` — +15 when both
final scores are positive, then the goal walk, then `Math.min(·, 25)`. -/
def calculateGoalDistributionScore (matchData : MatchData) (goals : List Goal) : Int :=
  min (goals.foldl distStep
        ⟨if matchData.homeScore > 0 ∧ matchData.awayScore > 0 then 15 else 0, 0, 0⟩).score
      25

/-- `getRatingCategory(score)` — ratingEngine.js lines 146-153. -/
def getRatingCategory (score : Int) : String :=
  if score ≥ 90 then "ALL TIME LEGENDARY"
  else if score ≥ 75 then "AMAZING"
  else if score ≥ 60 then "REALLY Good"
  else if score ≥ 30 then "Good"
  else if score ≥ 15 then "Average"
  else "Very Poor"

/-- The sub-score breakdown of a rating result. -/
structure Breakdown where
  goalVolume : Int
  goalTiming : Int
  goalDistribution : Int
deriving DecidableEq

/-- The `match` summary object of the rating result (named `matchInfo`
here because `match` is a Lean keyword). -/
structure MatchSummary where
  homeTeam : String
  awayTeam : String
  score : String
  totalGoals : Int
deriving DecidableEq

/-- The value returned by `calculateRating`. -/
structure RatingResult where
  totalScore : Int
  breakdown : Breakdown
  rating : String
  matchInfo : MatchSummary
deriving DecidableEq

/-- `calculateRating(matchData)` — ratingEngine.js lines 19-44. -/
def calculateRating (matchData : MatchData) : RatingResult :=
  let goals := matchData.goals.getD []
  let goalVolumeScore := calculateGoalVolumeScore (matchData.homeScore + matchData.awayScore)
  let goalTimingScore := calculateGoalTimingScore goals
  let goalDistributionScore := calculateGoalDistributionScore matchData goals
  let totalScore := goalVolumeScore + goalTimingScore + goalDistributionScore
  { totalScore := mathRound totalScore
    breakdown :=
      { goalVolume := mathRound goalVolumeScore
        goalTiming := mathRound goalTimingScore
        goalDistribution := mathRound goalDistributionScore }
    rating := getRatingCategory totalScore
    matchInfo :=
      { homeTeam := matchData.homeTeam
        awayTeam := matchData.awayTeam
        score := toString matchData.homeScore ++ "-" ++ toString matchData.awayScore
        totalGoals := matchData.homeScore + matchData.awayScore } }

/-!
Spec-side normalization definitions, used only to compare the engine
against the specification's wording.
-/

/-- Per-goal band contribution as the spec's §4.2 words it: on the
effective minute (missing minute counting as 0), +3 if minute ≤ 15, +3 if
minute ≥ 75, +2 if minute ≥ 80, +5 if minute ≥ 90, additively. -/
def specBandPoints (g : Goal) : Int :=
  (if minuteOrZero g.minute ≤ 15 then 3 else 0)
    + (if 75 ≤ minuteOrZero g.minute then 3 else 0)
    + (if 80 ≤ minuteOrZero g.minute then 2 else 0)
    + (if 90 ≤ minuteOrZero g.minute then 5 else 0)

/-- The timing score as the spec's §4.2 words it: sum the band
contributions over all goals, then clamp the total to the inclusive
range [0,25]. -/
def specTimingScore (goals : List Goal) : Int :=
  min (max ((goals.map specBandPoints).sum) 0) 25

/-- Stable insertion into a minute-sorted list: an incoming goal goes
after every already-placed goal with a strictly smaller minute and before
goals with an equal or larger minute that originally came later. -/
def insertByMinute (g : Goal) : List Goal → List Goal
  | [] => [g]
  | x :: xs =>
      if minuteOrZero x.minute < minuteOrZero g.minute then x :: insertByMinute g xs
      else g :: x :: xs

/-- Stable sort of a goal list by ascending minute (ties keep original
order), the normalization the spec's §9 strategy describes. -/
def sortByMinute : List Goal → List Goal
  | [] => []
  | g :: gs => insertByMinute g (sortByMinute gs)

/-- Canonical form of a goal event visible to the scoring functions: same
team, the effective minute made explicit, `scorer`/`type` replaced by
fixed values. -/
def normalizeGoal (g : Goal) : Goal :=
  { team := g.team, minute := some (minuteOrZero g.minute), scorer := "", type := "" }

/-!
The persistence layer's `saveMatch` (src/database.js lines 195-262,
JSON-file variant).  The in-memory state is the `matches` and `ratings`
arrays plus the two id counters.  The impure timestamp
`new Date().toISOString()` is passed in as an explicit `now` argument;
`JSON.stringify(goals || [])` is kept as the goal list itself (the
serialization is injective and never read back by `saveMatch`).
-/

/-- A stored row of the `matches` array. -/
structure MatchRecord where
  id : Int
  api_id : Int
  home_team : String
  away_team : String
  home_score : Int
  away_score : Int
  date : String
  status : String
  competition : String
  goals : List Goal
  watchability_score : Int
  rating_category : String
  created_at : String
deriving DecidableEq

/-- A stored row of the `ratings` array. -/
structure RatingRecord where
  id : Int
  match_id : Int
  goal_volume_score : Int
  goal_timing_score : Int
  goal_distribution_score : Int
  total_score : Int
  rating_category : String
  created_at : String
deriving DecidableEq

/-- The `matchData` argument of `saveMatch`: an API-shaped match record
whose `id` is the external (api) match identifier. -/
structure ApiMatch where
  id : Int
  homeTeam : String
  awayTeam : String
  homeScore : Int
  awayScore : Int
  date : String
  status : String
  competition : String
  goals : Option (List Goal)
deriving DecidableEq

/-- The in-memory database state of `FootballDatabase`. -/
structure DbState where
  matchRows : List MatchRecord
  ratings : List RatingRecord
  nextMatchId : Int
  nextRatingId : Int
deriving DecidableEq

/-- The new match row built by `saveMatch` when no duplicate is found:
id `nextMatchId`, keyed by the external `api_id`. -/
def savedMatchRow (st : DbState) (matchData : ApiMatch) (ratingData : RatingResult)
    (now : String) : MatchRecord :=
  { id := st.nextMatchId
    api_id := matchData.id
    home_team := matchData.homeTeam
    away_team := matchData.awayTeam
    home_score := matchData.homeScore
    away_score := matchData.awayScore
    date := matchData.date
    status := matchData.status
    competition := matchData.competition
    goals := matchData.goals.getD []
    watchability_score := ratingData.totalScore
    rating_category := ratingData.rating
    created_at := now }

/-- The new rating row built by `saveMatch` when no duplicate is found:
`match_id` is the new match row's id `nextMatchId`. -/
def savedRatingRow (st : DbState) (ratingData : RatingResult) (now : String) : RatingRecord :=
  { id := st.nextRatingId
    match_id := st.nextMatchId
    goal_volume_score := ratingData.breakdown.goalVolume
    goal_timing_score := ratingData.breakdown.goalTiming
    goal_distribution_score := ratingData.breakdown.goalDistribution
    total_score := ratingData.totalScore
    rating_category := ratingData.rating
    created_at := now }

/-- `saveMatch(matchData, ratingData)` — src/database.js lines 195-262:
look up an existing match by `api_id === matchData.id`; if found return
its id unchanged, otherwise append the new match row and rating row and
return the new match id. -/
def saveMatch (st : DbState) (matchData : ApiMatch) (ratingData : RatingResult)
    (now : String) : Int × DbState :=
  match st.matchRows.find? (fun m => m.api_id == matchData.id) with
  | some existingMatch => (existingMatch.id, st)
  | none =>
      ((savedMatchRow st matchData ratingData now).id,
       { matchRows := st.matchRows ++ [savedMatchRow st matchData ratingData now]
         ratings := st.ratings ++ [savedRatingRow st ratingData now]
         nextMatchId := st.nextMatchId + 1
         nextRatingId := st.nextRatingId + 1 })

/-!
Theorems.
-/

/-- C2: for every non-negative integer `t`, `calculateGoalVolumeScore t`
follows the fixed table (0→0, 1→5, 2→15, 3→25, 4→35, 5→45, and 50 for all
`t ≥ 6`), its output lies in {0,5,15,25,35,45,50}, and the function is
monotonically non-decreasing over non-negative inputs. -/
theorem goalVolume_table_monotone :
    (calculateGoalVolumeScore 0 = 0 ∧ calculateGoalVolumeScore 1 = 5
      ∧ calculateGoalVolumeScore 2 = 15 ∧ calculateGoalVolumeScore 3 = 25
      ∧ calculateGoalVolumeScore 4 = 35 ∧ calculateGoalVolumeScore 5 = 45)
    ∧ (∀ t : Int, 6 ≤ t → calculateGoalVolumeScore t = 50)
    ∧ (∀ t : Int, 0 ≤ t →
        calculateGoalVolumeScore t = 0 ∨ calculateGoalVolumeScore t = 5
          ∨ calculateGoalVolumeScore t = 15 ∨ calculateGoalVolumeScore t = 25
          ∨ calculateGoalVolumeScore t = 35 ∨ calculateGoalVolumeScore t = 45
          ∨ calculateGoalVolumeScore t = 50)
    ∧ (∀ a b : Int, 0 ≤ a → a ≤ b →
        calculateGoalVolumeScore a ≤ calculateGoalVolumeScore b) := by
  refine ⟨⟨by decide, by decide, by decide, by decide, by decide, by decide⟩, ?_, ?_, ?_⟩
  · intro t ht
    unfold calculateGoalVolumeScore
    split_ifs <;> omega
  · intro t ht
    unfold calculateGoalVolumeScore
    split_ifs <;> omega
  · intro a b ha hab
    unfold calculateGoalVolumeScore
    split_ifs <;> omega

/-- Witness for `goalVolume_table_monotone` at concrete inputs. -/
theorem goalVolume_table_monotone_instance :
    6 ≤ (7 : Int) ∧ calculateGoalVolumeScore 7 = 50
      ∧ (0 : Int) ≤ 2 ∧ (2 : Int) ≤ 9
      ∧ calculateGoalVolumeScore 2 ≤ calculateGoalVolumeScore 9 :=
  ⟨by decide, goalVolume_table_monotone.2.1 7 (by decide), by decide, by decide,
    goalVolume_table_monotone.2.2.2 2 9 (by decide) (by decide)⟩

/-- C10: every negative integer input to `calculateGoalVolumeScore` falls
through all six exact-equality tests and hits the default branch, so it
silently returns the maximum volume sub-score 50. -/
theorem goalVolume_negative_input (n : Int) (h : n < 0) :
    calculateGoalVolumeScore n = 50 := by
  unfold calculateGoalVolumeScore
  split_ifs <;> omega

/-- Witness for `goalVolume_negative_input` at `n = -1`. -/
theorem goalVolume_negative_input_instance :
    (-1 : Int) < 0 ∧ calculateGoalVolumeScore (-1) = 50 :=
  ⟨by decide, goalVolume_negative_input (-1) (by decide)⟩

/-- C4: on every integer in [0,100], `getRatingCategory` gives the stated
label on each of the six threshold ranges, and the ranges
[90,100], [75,89], [60,74], [30,59], [15,29], [0,14] cover all of [0,100]
(their bounds make them pairwise disjoint, so every score gets exactly
one label). -/
theorem ratingCategory_partition (s : Int) (h0 : 0 ≤ s) (h1 : s ≤ 100) :
    (90 ≤ s ∧ s ≤ 100 → getRatingCategory s = "ALL TIME LEGENDARY")
    ∧ (75 ≤ s ∧ s ≤ 89 → getRatingCategory s = "AMAZING")
    ∧ (60 ≤ s ∧ s ≤ 74 → getRatingCategory s = "REALLY Good")
    ∧ (30 ≤ s ∧ s ≤ 59 → getRatingCategory s = "Good")
    ∧ (15 ≤ s ∧ s ≤ 29 → getRatingCategory s = "Average")
    ∧ (0 ≤ s ∧ s ≤ 14 → getRatingCategory s = "Very Poor")
    ∧ ((90 ≤ s ∧ s ≤ 100) ∨ (75 ≤ s ∧ s ≤ 89) ∨ (60 ≤ s ∧ s ≤ 74)
        ∨ (30 ≤ s ∧ s ≤ 59) ∨ (15 ≤ s ∧ s ≤ 29) ∨ (0 ≤ s ∧ s ≤ 14)) := by
  unfold getRatingCategory
  split_ifs <;>
    refine ⟨?_, ?_, ?_, ?_, ?_, ?_, ?_⟩ <;>
    first
      | (intro hh; rfl)
      | (intro hh; exfalso; omega)
      | omega

/-- Witness for `ratingCategory_partition` at `s = 17`. -/
theorem ratingCategory_partition_instance :
    0 ≤ (17 : Int) ∧ (17 : Int) ≤ 100 ∧ getRatingCategory 17 = "Average" :=
  ⟨by decide, by decide,
    (ratingCategory_partition 17 (by decide) (by decide)).2.2.2.2.1 ⟨by decide, by decide⟩⟩

/-- The single-goal input of spec Scenario C: 1-0, one home goal in
minute 90. -/
def scenarioCInput : MatchData :=
  ⟨"Home", "Away", 1, 0, some [⟨"home", some 90, "Unknown", "REGULAR"⟩]⟩

/-- C7: on the 1-0 match with a single home goal at minute 90,
`calculateRating` returns volume 5, timing 10, distribution 2, total 17
and category "Average". -/
theorem late_winner_scenario_eval :
    (calculateRating scenarioCInput).breakdown.goalVolume = 5
    ∧ (calculateRating scenarioCInput).breakdown.goalTiming = 10
    ∧ (calculateRating scenarioCInput).breakdown.goalDistribution = 2
    ∧ (calculateRating scenarioCInput).totalScore = 17
    ∧ (calculateRating scenarioCInput).rating = "Average" := by
  decide

/-- Each per-goal timing contribution is non-negative. -/
theorem goalTimingPoints_nonneg (g : Goal) : 0 ≤ goalTimingPoints g := by
  unfold goalTimingPoints
  split_ifs <;> omega

/-- The timing fold is the initial value plus the sum of the per-goal
contributions. -/
theorem timing_foldl_eq (gs : List Goal) :
    ∀ a : Int, gs.foldl (fun score g => score + goalTimingPoints g) a
      = a + (gs.map goalTimingPoints).sum := by
  induction gs with
  | nil => intro a; simp
  | cons g t ih =>
      intro a
      simp only [List.foldl_cons, List.map_cons, List.sum_cons, ih, add_assoc]

/-- The total of the per-goal timing contributions is non-negative. -/
theorem sum_timingPoints_nonneg (gs : List Goal) :
    0 ≤ (gs.map goalTimingPoints).sum := by
  apply List.sum_nonneg
  intro x hx
  obtain ⟨g, _, rfl⟩ := List.mem_map.mp hx
  exact goalTimingPoints_nonneg g

/-- The timing score lies in [0,25]. -/
theorem calculateGoalTimingScore_bounds (gs : List Goal) :
    0 ≤ calculateGoalTimingScore gs ∧ calculateGoalTimingScore gs ≤ 25 := by
  unfold calculateGoalTimingScore
  rw [timing_foldl_eq]
  have h := sum_timingPoints_nonneg gs
  exact ⟨le_min (by omega) (by norm_num), min_le_right _ _⟩

/-- The spec's per-goal band contribution agrees with the engine's. -/
theorem specBandPoints_eq (g : Goal) : specBandPoints g = goalTimingPoints g := by
  unfold specBandPoints goalTimingPoints
  split_ifs <;> omega

/-- C3: the engine's timing score equals the spec's clamp-to-[0,25] of the
summed additive band contributions on the effective minute (missing
minute counting as 0), and a minute-90 goal indeed collects the three
late bands at once for 3+2+5 = 10 points. -/
theorem goalTiming_matches_spec (goals : List Goal) :
    calculateGoalTimingScore goals = specTimingScore goals
    ∧ goalTimingPoints ⟨"home", some 90, "", ""⟩ = 10 := by
  constructor
  · unfold calculateGoalTimingScore specTimingScore
    rw [timing_foldl_eq]
    have hfun : specBandPoints = goalTimingPoints := funext specBandPoints_eq
    rw [hfun, zero_add, max_eq_left (sum_timingPoints_nonneg goals)]
  · decide

/-- The volume score lies in [0,50] for every integer input. -/
theorem calculateGoalVolumeScore_bounds (t : Int) :
    0 ≤ calculateGoalVolumeScore t ∧ calculateGoalVolumeScore t ≤ 50 := by
  unfold calculateGoalVolumeScore
  split_ifs <;> omega

/-- The comeback bonus is non-negative. -/
theorem comebackBonus_nonneg (tally other : Int) : 0 ≤ comebackBonus tally other := by
  unfold comebackBonus
  split_ifs <;> omega

/-- The equalizer bonus is non-negative. -/
theorem equalizerBonus_nonneg (tally other : Int) : 0 ≤ equalizerBonus tally other := by
  unfold equalizerBonus
  split_ifs <;> omega

/-- The late-winner bonus is non-negative. -/
theorem lateWinnerBonus_nonneg (m : Option Int) (tally other : Int) :
    0 ≤ lateWinnerBonus m tally other := by
  unfold lateWinnerBonus
  split_ifs <;> omega

/-- Each distribution-walk step can only increase the accumulated score. -/
theorem distStep_score_le (s : DistState) (g : Goal) : s.score ≤ (distStep s g).score := by
  unfold distStep distStepParts
  split_ifs
  · have h1 := comebackBonus_nonneg (s.homeGoals + 1) s.awayGoals
    have h2 := equalizerBonus_nonneg (s.homeGoals + 1) s.awayGoals
    have h3 := lateWinnerBonus_nonneg g.minute (s.homeGoals + 1) s.awayGoals
    dsimp only
    omega
  · have h1 := comebackBonus_nonneg (s.awayGoals + 1) s.homeGoals
    have h2 := equalizerBonus_nonneg (s.awayGoals + 1) s.homeGoals
    have h3 := lateWinnerBonus_nonneg g.minute (s.awayGoals + 1) s.homeGoals
    dsimp only
    omega
  · exact le_refl _

/-- The distribution walk never drives the score below its start value. -/
theorem foldl_distStep_score_nonneg (gs : List Goal) :
    ∀ s : DistState, 0 ≤ s.score → 0 ≤ (gs.foldl distStep s).score := by
  induction gs with
  | nil => intro s hs; simpa using hs
  | cons g t ih =>
      intro s hs
      rw [List.foldl_cons]
      exact ih _ (le_trans hs (distStep_score_le s g))

/-- The distribution score lies in [0,25]. -/
theorem calculateGoalDistributionScore_bounds (md : MatchData) (gs : List Goal) :
    0 ≤ calculateGoalDistributionScore md gs
      ∧ calculateGoalDistributionScore md gs ≤ 25 := by
  unfold calculateGoalDistributionScore
  have h0 : (0 : Int) ≤ if md.homeScore > 0 ∧ md.awayScore > 0 then 15 else 0 := by
    split_ifs <;> omega
  have h := foldl_distStep_score_nonneg gs
    ⟨if md.homeScore > 0 ∧ md.awayScore > 0 then 15 else 0, 0, 0⟩ h0
  exact ⟨le_min h (by norm_num), min_le_right _ _⟩

/-- `calculateRating` places the volume score in the breakdown unchanged. -/
theorem rating_goalVolume (md : MatchData) :
    (calculateRating md).breakdown.goalVolume
      = calculateGoalVolumeScore (md.homeScore + md.awayScore) := rfl

/-- `calculateRating` places the timing score in the breakdown unchanged. -/
theorem rating_goalTiming (md : MatchData) :
    (calculateRating md).breakdown.goalTiming
      = calculateGoalTimingScore (md.goals.getD []) := rfl

/-- `calculateRating` places the distribution score in the breakdown
unchanged. -/
theorem rating_goalDistribution (md : MatchData) :
    (calculateRating md).breakdown.goalDistribution
      = calculateGoalDistributionScore md (md.goals.getD []) := rfl

/-- `calculateRating`'s total is the sum of the three sub-scores. -/
theorem rating_totalScore (md : MatchData) :
    (calculateRating md).totalScore
      = calculateGoalVolumeScore (md.homeScore + md.awayScore)
        + calculateGoalTimingScore (md.goals.getD [])
        + calculateGoalDistributionScore md (md.goals.getD []) := rfl

/-- C1: for every input with non-negative scores and any goal list, the
rating result satisfies `totalScore = goalVolume + goalTiming +
goalDistribution` exactly, with `goalVolume ∈ [0,50]`,
`goalTiming ∈ [0,25]`, `goalDistribution ∈ [0,25]` and
`totalScore ∈ [0,100]`. -/
theorem calculateRating_invariants (md : MatchData)
    (_h1 : 0 ≤ md.homeScore) (_h2 : 0 ≤ md.awayScore) :
    (calculateRating md).totalScore
      = (calculateRating md).breakdown.goalVolume
        + (calculateRating md).breakdown.goalTiming
        + (calculateRating md).breakdown.goalDistribution
    ∧ 0 ≤ (calculateRating md).breakdown.goalVolume
    ∧ (calculateRating md).breakdown.goalVolume ≤ 50
    ∧ 0 ≤ (calculateRating md).breakdown.goalTiming
    ∧ (calculateRating md).breakdown.goalTiming ≤ 25
    ∧ 0 ≤ (calculateRating md).breakdown.goalDistribution
    ∧ (calculateRating md).breakdown.goalDistribution ≤ 25
    ∧ 0 ≤ (calculateRating md).totalScore
    ∧ (calculateRating md).totalScore ≤ 100 := by
  rw [rating_totalScore, rating_goalVolume, rating_goalTiming, rating_goalDistribution]
  have hv := calculateGoalVolumeScore_bounds (md.homeScore + md.awayScore)
  have ht := calculateGoalTimingScore_bounds (md.goals.getD [])
  have hd := calculateGoalDistributionScore_bounds md (md.goals.getD [])
  omega

/-- Witness for `calculateRating_invariants` on the 0-0 goalless match. -/
theorem calculateRating_invariants_instance :
    0 ≤ (MatchData.mk "H" "A" 0 0 none).homeScore
    ∧ 0 ≤ (MatchData.mk "H" "A" 0 0 none).awayScore
    ∧ (calculateRating (MatchData.mk "H" "A" 0 0 none)).totalScore
        = (calculateRating (MatchData.mk "H" "A" 0 0 none)).breakdown.goalVolume
          + (calculateRating (MatchData.mk "H" "A" 0 0 none)).breakdown.goalTiming
          + (calculateRating (MatchData.mk "H" "A" 0 0 none)).breakdown.goalDistribution :=
  ⟨by decide, by decide,
    (calculateRating_invariants (MatchData.mk "H" "A" 0 0 none) (by decide) (by decide)).1⟩

/-- At most one of the comeback and equalizer checks can fire on the same
post-increment tallies. -/
theorem bonus_exclusive (tally other : Int) :
    comebackBonus tally other = 0 ∨ equalizerBonus tally other = 0 := by
  unfold comebackBonus equalizerBonus
  split_ifs <;> omega

/-- The goal list behind the comeback-plus-late-winner example: away goal
at 10, home equalizer at 20, home comeback winner at 85. -/
def comebackGoals : List Goal :=
  [⟨"away", some 10, "", ""⟩, ⟨"home", some 20, "", ""⟩, ⟨"home", some 85, "", ""⟩]

/-- C6: in the distribution walk, no goal ever earns the comeback bonus
(+4) and the equalizer bonus (+3) together, while the late-winner bonus
(+2) can stack on a comeback: the minute-85 goal of `comebackGoals` earns
+4 and +2 at once, and the whole 2-1 match scores 15+3+4+2 = 24. -/
theorem comeback_equalizer_exclusive :
    (∀ (s : DistState) (g : Goal),
      (distStepParts s g).1.comeback = 0 ∨ (distStepParts s g).1.equalizer = 0)
    ∧ (distStepParts ⟨15, 1, 1⟩ ⟨"home", some 85, "", ""⟩).1.comeback = 4
    ∧ (distStepParts ⟨15, 1, 1⟩ ⟨"home", some 85, "", ""⟩).1.late = 2
    ∧ calculateGoalDistributionScore ⟨"H", "A", 2, 1, some comebackGoals⟩ comebackGoals = 24 := by
  refine ⟨?_, by decide, by decide, by decide⟩
  intro s g
  unfold distStepParts
  split_ifs
  · exact bonus_exclusive _ _
  · exact bonus_exclusive _ _
  · exact Or.inl rfl

/-- The unsorted goal list of the order-sensitivity example: the home goal
at minute 90 listed before the away goal at minute 10. -/
def unsortedGoals : List Goal :=
  [⟨"home", some 90, "", ""⟩, ⟨"away", some 10, "", ""⟩]

/-- The 1-1 match carrying `unsortedGoals`. -/
def drawInput : MatchData := ⟨"H", "A", 1, 1, some unsortedGoals⟩

/-- C5 counterexample: the engine does not sort goals before the walk, and
the distribution sub-score is not invariant under minute-sorting — on the
1-1 match with goals listed as [home@90, away@10] the walk gives 20, while
the minute-sorted list [away@10, home@90] gives 18. -/
theorem goalDistribution_sort_counterexample :
    calculateGoalDistributionScore drawInput unsortedGoals
      ≠ calculateGoalDistributionScore drawInput (sortByMinute unsortedGoals) := by
  decide

/-- C5 amended: the engine walks the goal list in caller-provided order
(no sorting), and the distribution sub-score is order-sensitive — there is
an input whose score differs from that of its minute-sorted
normalization. -/
theorem goalDistribution_order_sensitive :
    ∃ (md : MatchData) (gs : List Goal),
      md.goals = some gs
      ∧ calculateGoalDistributionScore md gs
          ≠ calculateGoalDistributionScore md (sortByMinute gs) :=
  ⟨drawInput, unsortedGoals, by decide, by decide⟩

/-- Making the effective minute explicit does not change it. -/
theorem minuteOrZero_norm (m : Option Int) :
    minuteOrZero (some (minuteOrZero m)) = minuteOrZero m := by
  cases m <;> rfl

/-- Making the effective minute explicit does not change the raw
`minute >= 80` test. -/
theorem minuteGe80_norm (m : Option Int) :
    minuteGe80 (some (minuteOrZero m)) = minuteGe80 m := by
  cases m <;> rfl

/-- Normalizing a goal does not change its timing contribution. -/
theorem goalTimingPoints_norm (g : Goal) :
    goalTimingPoints (normalizeGoal g) = goalTimingPoints g := by
  unfold goalTimingPoints normalizeGoal
  simp only [minuteOrZero_norm]

/-- Normalizing the minute does not change the late-winner bonus. -/
theorem lateWinnerBonus_norm (m : Option Int) (tally other : Int) :
    lateWinnerBonus (some (minuteOrZero m)) tally other = lateWinnerBonus m tally other := by
  unfold lateWinnerBonus
  rw [minuteGe80_norm]

/-- Normalizing a goal does not change a distribution-walk step. -/
theorem distStep_norm (s : DistState) (g : Goal) :
    distStep s (normalizeGoal g) = distStep s g := by
  unfold distStep distStepParts normalizeGoal
  simp only [lateWinnerBonus_norm]

/-- Normalizing every goal does not change the distribution walk. -/
theorem foldl_distStep_norm (gs : List Goal) :
    ∀ s : DistState, (gs.map normalizeGoal).foldl distStep s = gs.foldl distStep s := by
  induction gs with
  | nil => intro s; rfl
  | cons g t ih =>
      intro s
      simp only [List.map_cons, List.foldl_cons, distStep_norm, ih]

/-- Normalizing every goal does not change the timing fold. -/
theorem foldl_timing_norm (gs : List Goal) :
    ∀ a : Int,
      (gs.map normalizeGoal).foldl (fun score g => score + goalTimingPoints g) a
        = gs.foldl (fun score g => score + goalTimingPoints g) a := by
  induction gs with
  | nil => intro a; rfl
  | cons g t ih =>
      intro a
      simp only [List.map_cons, List.foldl_cons, goalTimingPoints_norm, ih]

/-- C8: `calculateRating` is a total function of its input; an absent
`goals` field yields exactly the result of the empty goal list, and
replacing every goal by its canonical form — the effective minute
(missing minute = 0) made explicit and `scorer`/`type` overwritten —
leaves the result unchanged, so scoring never reads `scorer` or `type`
and treats a missing minute as 0. -/
theorem calculateRating_defaults :
    (∀ md : MatchData,
      calculateRating { md with goals := none }
        = calculateRating { md with goals := some [] })
    ∧ (∀ (md : MatchData) (gs : List Goal),
      calculateRating { md with goals := some (gs.map normalizeGoal) }
        = calculateRating { md with goals := some gs }) := by
  constructor
  · intro md
    rfl
  · intro md gs
    have ht : calculateGoalTimingScore (gs.map normalizeGoal)
        = calculateGoalTimingScore gs := by
      unfold calculateGoalTimingScore
      rw [foldl_timing_norm]
    have hd : calculateGoalDistributionScore { md with goals := some (gs.map normalizeGoal) }
          (gs.map normalizeGoal)
        = calculateGoalDistributionScore { md with goals := some gs } gs := by
      unfold calculateGoalDistributionScore
      dsimp only
      rw [foldl_distStep_norm]
    simp only [calculateRating, Option.getD_some]
    rw [ht, hd]

/-- `find?` skips a prefix in which nothing matches. -/
theorem find?_append_of_none {α : Type} (p : α → Bool) (l1 l2 : List α)
    (h : l1.find? p = none) : (l1 ++ l2).find? p = l2.find? p := by
  induction l1 with
  | nil => rfl
  | cons a t ih =>
      rw [List.cons_append]
      cases hpa : p a with
      | true =>
          rw [List.find?_cons_of_pos _ hpa] at h
          exact absurd h (by simp)
      | false =>
          rw [List.find?_cons_of_neg _ (by simp [hpa])] at h
          rw [List.find?_cons_of_neg _ (by simp [hpa])]
          exact ih h

/-- `saveMatch` on a state already holding the external identifier returns
the stored id and changes nothing. -/
theorem saveMatch_found (st : DbState) (md : ApiMatch) (rd : RatingResult)
    (now : String) (ex : MatchRecord)
    (h : st.matchRows.find? (fun m => m.api_id == md.id) = some ex) :
    saveMatch st md rd now = (ex.id, st) := by
  unfold saveMatch
  rw [h]

/-- `saveMatch` on a state without the external identifier appends one
match row and one rating row and returns the fresh id. -/
theorem saveMatch_new (st : DbState) (md : ApiMatch) (rd : RatingResult)
    (now : String)
    (h : st.matchRows.find? (fun m => m.api_id == md.id) = none) :
    saveMatch st md rd now
      = (st.nextMatchId,
         { matchRows := st.matchRows ++ [savedMatchRow st md rd now]
           ratings := st.ratings ++ [savedRatingRow st rd now]
           nextMatchId := st.nextMatchId + 1
           nextRatingId := st.nextRatingId + 1 }) := by
  unfold saveMatch
  rw [h]
  rfl

/-- C9: saving the same external identifier twice is idempotent — the
second `saveMatch` call changes nothing and returns the id the first call
returned; and when the identifier was not yet stored (and no stale rating
row reuses the fresh id), the pair of calls leaves exactly one match row
with that `api_id` and exactly one rating row linked to the returned id. -/
theorem saveMatch_idempotent (st : DbState) (md : ApiMatch) (rd : RatingResult)
    (n1 n2 : String) :
    saveMatch (saveMatch st md rd n1).2 md rd n2
        = ((saveMatch st md rd n1).1, (saveMatch st md rd n1).2)
    ∧ ((∀ m ∈ st.matchRows, m.api_id ≠ md.id) →
       (∀ r ∈ st.ratings, r.match_id ≠ st.nextMatchId) →
        (saveMatch (saveMatch st md rd n1).2 md rd n2).2.matchRows.countP
            (fun m => m.api_id == md.id) = 1
          ∧ (saveMatch (saveMatch st md rd n1).2 md rd n2).2.ratings.countP
            (fun r => r.match_id == (saveMatch st md rd n1).1) = 1) := by
  cases hfind : st.matchRows.find? (fun m => m.api_id == md.id) with
  | some ex =>
      have e1 := saveMatch_found st md rd n1 ex hfind
      rw [e1]
      have e2 := saveMatch_found st md rd n2 ex hfind
      constructor
      · exact e2
      · intro h1 _h2
        exfalso
        have hmem := List.mem_of_find?_eq_some hfind
        have hp := List.find?_some hfind
        have hapi : ex.api_id = md.id := by simpa using hp
        exact h1 ex hmem hapi
  | none =>
      have e1 := saveMatch_new st md rd n1 hfind
      rw [e1]
      dsimp only
      have hp : ((savedMatchRow st md rd n1).api_id == md.id) = true := by
        simp [savedMatchRow]
      have e2find : (st.matchRows ++ [savedMatchRow st md rd n1]).find?
          (fun m => m.api_id == md.id) = some (savedMatchRow st md rd n1) := by
        rw [find?_append_of_none _ _ _ hfind]
        rw [List.find?_cons_of_pos (p := fun (m : MatchRecord) => m.api_id == md.id) _ hp]
      have e2 := saveMatch_found
        ⟨st.matchRows ++ [savedMatchRow st md rd n1],
         st.ratings ++ [savedRatingRow st rd n1],
         st.nextMatchId + 1, st.nextRatingId + 1⟩ md rd n2 (savedMatchRow st md rd n1) e2find
      constructor
      · exact e2
      · intro h1 h2
        rw [e2]
        dsimp only
        constructor
        · rw [List.countP_append]
          have hz : st.matchRows.countP (fun m => m.api_id == md.id) = 0 := by
            rw [List.countP_eq_zero]
            intro m hm
            simpa using h1 m hm
          rw [hz]
          simp [List.countP_cons, hp]
        · rw [List.countP_append]
          have hz : st.ratings.countP (fun r => r.match_id == st.nextMatchId) = 0 := by
            rw [List.countP_eq_zero]
            intro r hr
            simpa using h2 r hr
          rw [hz]
          simp [List.countP_cons, savedRatingRow]

/-- The empty database state. -/
def emptyDb : DbState := ⟨[], [], 1, 1⟩

/-- A sample API match used to instantiate the idempotence theorem. -/
def sampleApiMatch : ApiMatch :=
  ⟨537817, "Arsenal FC", "Nottingham Forest FC", 3, 0,
   "2025-09-13T11:30:00Z", "FINISHED", "Premier League", none⟩

/-- The rating of the sample match. -/
def sampleRating : RatingResult :=
  calculateRating ⟨"Arsenal FC", "Nottingham Forest FC", 3, 0, none⟩

/-- Witness for `saveMatch_idempotent` on the empty store. -/
theorem saveMatch_idempotent_instance :
    saveMatch (saveMatch emptyDb sampleApiMatch sampleRating "t1").2 sampleApiMatch sampleRating "t2"
        = ((saveMatch emptyDb sampleApiMatch sampleRating "t1").1,
           (saveMatch emptyDb sampleApiMatch sampleRating "t1").2)
    ∧ (saveMatch (saveMatch emptyDb sampleApiMatch sampleRating "t1").2
          sampleApiMatch sampleRating "t2").2.matchRows.countP
        (fun m => m.api_id == sampleApiMatch.id) = 1
    ∧ (saveMatch (saveMatch emptyDb sampleApiMatch sampleRating "t1").2
          sampleApiMatch sampleRating "t2").2.ratings.countP
        (fun r => r.match_id == (saveMatch emptyDb sampleApiMatch sampleRating "t1").1) = 1 := by
  have h := saveMatch_idempotent emptyDb sampleApiMatch sampleRating "t1" "t2"
  have hc := h.2 (by simp [emptyDb]) (by simp [emptyDb])
  exact ⟨h.1, hc.1, hc.2⟩
